import Mathlib

/-!
Verification of the chat-message backend (`src/main.py`).

The program is a FastAPI adapter with two handlers:
* `list_messages` (GET /api/messages): fetches up to `limit` raw documents
  from the document store, normalizes them, and sorts them by `created_at`.
* `create_message` (POST /api/messages): optionally stores an uploaded file
  under a generated name, then persists a `Message` to the document store.

The document-store client (`database.create_document`, `database.get_documents`)
and the `schemas.Message` model live in files that are not part of the sources;
they are modelled from the spec where noted.
-/

namespace ChatBackend

/-- A scalar value that may occupy the `_id` field of a raw Mongo document.
Models Python truthiness (`if d.get("_id")`) and `str(...)` for the value
shapes relevant to the `_id` field. -/
inductive BVal where
  | vStr (s : String)
  | vInt (n : Int)
deriving DecidableEq

/-- Python truthiness: empty string and zero are falsy. -/
def BVal.truthy : BVal → Bool
  | .vStr s => !s.isEmpty
  | .vInt n => n != 0

/-- Python `str(...)` on the value. -/
def BVal.pyStr : BVal → String
  | .vStr s => s
  | .vInt n => toString n

/-- A Python `datetime` as stored in `created_at`; carries its
`isoformat()` rendering. `datetime` objects are always truthy. -/
structure PyDateTime where
  iso : String
deriving DecidableEq

/-- Python `datetime.isoformat()`. -/
def PyDateTime.isoformat (d : PyDateTime) : String := d.iso

/-- A raw document returned by the document store, as accessed by
`list_messages` via `d.get(...)` (absent keys yield `None`). -/
structure RawDoc where
  mongoId : Option BVal := none
  username : Option String := none
  text : Option String := none
  file_url : Option String := none
  content_type : Option String := none
  created_at : Option PyDateTime := none
deriving DecidableEq

/-- One normalized item of the listing response, mirroring the dict built in
the loop of `list_messages` in `src/main.py`. -/
structure MessageOut where
  id : Option String
  username : Option String
  text : Option String
  file_url : Option String
  content_type : Option String
  created_at : Option String
deriving DecidableEq

/-- The normalization of one raw document performed inside the loop of
`list_messages`:
`d_id = str(d.get("_id")) if d.get("_id") else None` and
`"created_at": d.get("created_at").isoformat() if d.get("created_at") else None`
(`datetime` values are always truthy). -/
def normalizeDoc (d : RawDoc) : MessageOut :=
  { id := match d.mongoId with
          | some v => if v.truthy then some v.pyStr else none
          | none => none
    username := d.username
    text := d.text
    file_url := d.file_url
    content_type := d.content_type
    created_at := d.created_at.map PyDateTime.isoformat }

/-- The sort key used by `list_messages`:
`lambda x: x.get("created_at") or ""` (Python `or` yields `""` for the falsy
values `None` and `""`). -/
def sortKey (m : MessageOut) : String :=
  match m.created_at with
  | some s => if s = "" then "" else s
  | none => ""

/-- Lexicographic `≤` on character lists by code point, the order Python uses
to compare strings. -/
def charsLe : List Char → List Char → Bool
  | [], _ => true
  | _ :: _, [] => false
  | a :: as, b :: bs =>
      if a.toNat < b.toNat then true
      else if b.toNat < a.toNat then false
      else charsLe as bs

/-- Python string `≤` (lexicographic by code point). -/
def strLe (a b : String) : Bool := charsLe a.data b.data

/-- The comparison `sorted` uses on two normalized items: their
`created_at`-derived keys compared as Python strings. -/
def keyLe (a b : MessageOut) : Prop := strLe (sortKey a) (sortKey b) = true

instance : DecidableRel keyLe := fun a b =>
  inferInstanceAs (Decidable (strLe (sortKey a) (sortKey b) = true))

/-- Modelled from the spec: `database.get_documents(collection_name, filter,
limit)` (in `database.py`, absent from the sources) returns the stored raw
records in the store's own native order, bounded by `limit`; spec §4.2: "the
store's own default ordering applies to which `limit` documents are
selected". The store state is the list of raw documents in native order. -/
def get_documents (_collection : String) (store : List RawDoc) (limit : Nat) :
    List RawDoc :=
  store.take limit

/-- The success path of the GET /api/messages handler in `src/main.py`:
fetch at most `limit` documents, normalize each, and sort by the
`created_at` key ascending (Python `sorted` is an ascending stable sort;
`List.insertionSort` with `≤` on the keys realizes it). -/
def list_messages (store : List RawDoc) (limit : Nat) : List MessageOut :=
  List.insertionSort keyLe
    ((get_documents "message" store limit).map normalizeDoc)

/-- A Python exception, carrying its `str(e)` rendering. -/
structure Exc where
  msg : String
deriving DecidableEq

/-- Python `str(e)` on an exception. -/
def Exc.str (e : Exc) : String := e.msg

/-- An HTTP-level handler outcome: a successful JSON body or an
`HTTPException(status_code, detail)`. -/
inductive HResp (α : Type) where
  | ok (a : α)
  | httpError (status : Nat) (detail : String)
deriving DecidableEq

/-- The full GET /api/messages handler including its `try/except`: a store
failure while fetching surfaces as `HTTPException(500, str(e))`; otherwise
the fetched documents are normalized and sorted. -/
def list_messages_endpoint (fetch : Except Exc (List RawDoc)) :
    HResp (List MessageOut) :=
  match fetch with
  | .error e => .httpError 500 e.str
  | .ok docs =>
      .ok (List.insertionSort keyLe (docs.map normalizeDoc))

/-- Modelled from the spec: `schemas.Message` (in `schemas.py`, absent from
the sources), the sole entity of the data model (spec §3): `username`,
optional `text`, optional `file_url`, optional `content_type`, and a
`created_at` timestamp set once at creation time. Field content beyond
presence and typing is not validated here, matching the `MessageOut` pydantic
model visible in `src/main.py` and the handler, which applies no value
checks; the spec (§8) leaves the empty-username policy explicitly unpinned. -/
structure Message where
  username : String
  text : Option String
  file_url : Option String
  content_type : Option String
  created_at : PyDateTime
deriving DecidableEq

/-- An uploaded file part as the handler sees it: `file.filename` (optional),
`file.content_type` (optional), and the bytes of `await file.read()`. -/
structure UploadFileM where
  filename : Option String
  content_type : Option String
  content : List Nat
deriving DecidableEq

/-- One file written to disk: destination path and bytes. -/
structure FileWrite where
  path : String
  content : List Nat
deriving DecidableEq

/-- The JSON body returned by POST /api/messages on success:
`{"id": inserted_id, "ok": True}`. -/
structure CreateResponse where
  id : String
  ok : Bool
deriving DecidableEq

/-- Modelled from the spec: `database.create_document(collection_name,
entity) -> id` (in `database.py`, absent from the sources) appends the entity
to the store and returns its assigned opaque identifier (spec §3: "assigned
by the document store on creation"). The id is modelled as the string of the
store's size at insertion time; claims use only that it is the returned
store-assigned identifier. -/
def create_document (_collection : String) (msg : Message)
    (store : List (String × Message)) : List (String × Message) × String :=
  let iid := toString store.length
  (store ++ [(iid, msg)], iid)

/-- The injectable environment of one POST /api/messages call: the current
document-store contents and the outcome of the two effectful collaborators
(`some e` makes the disk write, resp. the store insert, raise `e`). -/
structure Env where
  store : List (String × Message)
  diskFail : Option Exc := none
  insertFail : Option Exc := none
deriving DecidableEq

/-- The observable outcome of one POST /api/messages call: the file writes
performed, the resulting document-store contents, and the HTTP response. -/
structure CreateOutcome where
  writes : List FileWrite
  store : List (String × Message)
  response : HResp CreateResponse
deriving DecidableEq

/-- Python `file.filename or ""` (`None` and `""` are falsy, both yield `""`). -/
def pyOrEmpty (o : Option String) : String :=
  match o with
  | some s => if s = "" then "" else s
  | none => ""

/-- Scan for the greatest index (counting from `i`) at which `c` occurs. -/
def lastIndexOfAux (c : Char) : List Char → Nat → Option Nat
  | [], _ => none
  | x :: xs, i =>
      match lastIndexOfAux c xs (i + 1) with
      | some j => some j
      | none => if x = c then some i else none

/-- The greatest index of `c` in `cs`, if any: Python `p.rfind(c)` with `-1`
mapped to `none`. -/
def lastIndexOf (c : Char) (cs : List Char) : Option Nat :=
  lastIndexOfAux c cs 0

/-- Model of `os.path.splitext(p)[1]` (posix): the extension starts at the last `.`
of the final path component, provided some earlier character of that
component is not a `.` (so dotfiles like `.bashrc` have no extension);
otherwise the extension is empty. -/
def splitextExt (p : String) : String :=
  let cs := p.data
  match lastIndexOf '.' cs with
  | none => ""
  | some d =>
      let start := match lastIndexOf '/' cs with
                   | none => 0
                   | some si => si + 1
      if start ≤ d ∧ ((cs.drop start).take (d - start)).any (fun ch => ch ≠ '.') then
        String.mk (cs.drop d)
      else ""

/-- The POST /api/messages handler in `src/main.py`, with `uuid4().hex`
modelled by the fresh `token`, the upload directory path by `uploadDir`, and
the `created_at` that `schemas.Message` assigns at construction by `now`.
If a file is present: `ext = os.path.splitext(file.filename or "")[1]`,
`fname = uuid4().hex + ext`, the bytes are written to
`os.path.join(UPLOAD_DIR, fname)`, `file_url = "/uploads/" + fname` and
`content_type = file.content_type`. Then a `Message` is built from the
gathered fields and inserted via `create_document`; any exception from the
disk write or the insert is caught by the surrounding `try/except` and
surfaces as `HTTPException(500, str(e))`. -/
def create_message (username : String) (text : Option String)
    (file : Option UploadFileM) (token : String) (uploadDir : String)
    (now : PyDateTime) (env : Env) : CreateOutcome :=
  match file with
  | some f =>
      let ext := splitextExt (pyOrEmpty f.filename)
      let fname := token ++ ext
      let destPath := uploadDir ++ "/" ++ fname
      match env.diskFail with
      | some e => ⟨[], env.store, .httpError 500 e.str⟩
      | none =>
          let w : List FileWrite := [⟨destPath, f.content⟩]
          match env.insertFail with
          | some e => ⟨w, env.store, .httpError 500 e.str⟩
          | none =>
              let msg : Message :=
                ⟨username, text, some ("/uploads/" ++ fname), f.content_type, now⟩
              let (store', iid) := create_document "message" msg env.store
              ⟨w, store', .ok ⟨iid, true⟩⟩
  | none =>
      match env.insertFail with
      | some e => ⟨[], env.store, .httpError 500 e.str⟩
      | none =>
          let msg : Message := ⟨username, text, none, none, now⟩
          let (store', iid) := create_document "message" msg env.store
          ⟨[], store', .ok ⟨iid, true⟩⟩

/-- The `file_url` the handler gathers: `None` without a file, otherwise
`"/uploads/" + uuid4().hex + ext`. -/
def gatheredFileUrl (file : Option UploadFileM) (token : String) : Option String :=
  file.map (fun f => "/uploads/" ++ (token ++ splitextExt (pyOrEmpty f.filename)))

/-- The `content_type` the handler gathers: `None` without a file, otherwise
the upload's declared `file.content_type`, verbatim. -/
def gatheredContentType (file : Option UploadFileM) : Option String :=
  file.bind (fun f => f.content_type)

/-! Concrete sample values used to instantiate the theorems. -/

/-- A sample early timestamp. -/
def dtEarly : PyDateTime := ⟨"2024-01-01T00:00:00"⟩

/-- A sample later timestamp. -/
def dtLate : PyDateTime := ⟨"2025-06-01T12:00:00"⟩

/-- A sample stored raw document with the early timestamp. -/
def docEarly : RawDoc :=
  { mongoId := some (.vStr "a1"), username := some "alice",
    text := some "hi", created_at := some dtEarly }

/-- A sample stored raw document with the later timestamp. -/
def docLate : RawDoc :=
  { mongoId := some (.vStr "b2"), username := some "bob",
    created_at := some dtLate }

/-- A sample stored raw document lacking a `created_at` timestamp. -/
def docNoTime : RawDoc :=
  { mongoId := some (.vStr "c3"), username := some "carol" }

/-- A sample environment with an empty store and both collaborators healthy. -/
def envEmpty : Env := { store := [] }

/-- A sample uploaded file named `photo.PNG`. -/
def filePhoto : UploadFileM :=
  { filename := some "photo.PNG", content_type := some "image/png",
    content := [137, 80, 78, 71] }

/-- Unfolding of `charsLe` on two nonempty lists. -/
theorem charsLe_cons_iff (a b : Char) (as bs : List Char) :
    charsLe (a :: as) (b :: bs) = true ↔
      a.toNat < b.toNat ∨ (a.toNat = b.toNat ∧ charsLe as bs = true) := by
  simp only [charsLe]
  split
  · rename_i h
    simp [h]
  · split
    · rename_i h1 h2
      simp only [Bool.false_eq_true, false_iff]
      rintro (h | ⟨he, _⟩)
      · exact h1 h
      · exact Nat.lt_irrefl _ (he ▸ h2)
    · rename_i h1 h2
      have he : a.toNat = b.toNat :=
        Nat.le_antisymm (Nat.le_of_not_lt h2) (Nat.le_of_not_lt h1)
      simp [he, Nat.lt_irrefl]

/-- Totality of the code-point order on character lists. -/
theorem charsLe_total : ∀ as bs : List Char,
    charsLe as bs = true ∨ charsLe bs as = true
  | [], _ => Or.inl rfl
  | _ :: _, [] => Or.inr rfl
  | a :: as, b :: bs => by
      rw [charsLe_cons_iff, charsLe_cons_iff]
      rcases Nat.lt_trichotomy a.toNat b.toNat with h | h | h
      · exact Or.inl (Or.inl h)
      · rcases charsLe_total as bs with ih | ih
        · exact Or.inl (Or.inr ⟨h, ih⟩)
        · exact Or.inr (Or.inr ⟨h.symm, ih⟩)
      · exact Or.inr (Or.inl h)

/-- Transitivity of the code-point order on character lists. -/
theorem charsLe_trans : ∀ as bs cs : List Char,
    charsLe as bs = true → charsLe bs cs = true → charsLe as cs = true
  | [], _, _, _, _ => rfl
  | _ :: _, [], _, h1, _ => by simp [charsLe] at h1
  | _ :: _, _ :: _, [], _, h2 => by simp [charsLe] at h2
  | a :: as, b :: bs, c :: cs, h1, h2 => by
      rw [charsLe_cons_iff] at h1 h2 ⊢
      rcases h1 with h1 | ⟨h1e, h1r⟩
      · rcases h2 with h2 | ⟨h2e, _⟩
        · exact Or.inl (Nat.lt_trans h1 h2)
        · exact Or.inl (by omega)
      · rcases h2 with h2 | ⟨h2e, h2r⟩
        · exact Or.inl (by omega)
        · exact Or.inr ⟨h1e.trans h2e, charsLe_trans as bs cs h1r h2r⟩

instance : IsTotal MessageOut keyLe :=
  ⟨fun _ _ => charsLe_total _ _⟩

instance : IsTrans MessageOut keyLe :=
  ⟨fun _ _ _ h1 h2 => charsLe_trans _ _ _ h1 h2⟩

/-- Characters absent from the list are never found. -/
theorem lastIndexOfAux_eq_none (c : Char) :
    ∀ (cs : List Char) (i : Nat), c ∉ cs → lastIndexOfAux c cs i = none
  | [], _, _ => rfl
  | x :: xs, i, h => by
      rw [List.mem_cons, not_or] at h
      obtain ⟨hx, hxs⟩ := h
      have hr := lastIndexOfAux_eq_none c xs (i + 1) hxs
      simp only [lastIndexOfAux, hr]
      rw [if_neg (fun he => hx he.symm)]

/-- A filename with no dot anywhere has no extension. -/
theorem splitextExt_of_no_dot (s : String) (h : '.' ∉ s.data) :
    splitextExt s = "" := by
  have hn : lastIndexOf '.' s.data = none :=
    lastIndexOfAux_eq_none '.' s.data 0 h
  simp [splitextExt, hn]

/-- C1: the Listing Handler applies the `limit` bound at the store-query
stage, before sorting: the result is the sort of the first `limit` documents
in the store's native order. Consequently there is a store state and a limit
where the strictly most recent message (every other document's sort key is
strictly below its key) is absent from the returned page even though the
page is full. -/
theorem limit_before_sort_can_omit_newest :
    (∀ (store : List RawDoc) (limit : Nat),
      list_messages store limit
        = List.insertionSort keyLe ((store.take limit).map normalizeDoc))
    ∧ ∃ (store : List RawDoc) (limit : Nat),
        0 < limit
        ∧ (∃ m ∈ store,
            (∀ d ∈ store, d = m ∨
              strLe (sortKey (normalizeDoc m)) (sortKey (normalizeDoc d)) = false)
            ∧ normalizeDoc m ∉ list_messages store limit)
        ∧ (list_messages store limit).length = limit :=
  ⟨fun _ _ => rfl,
    ⟨[docEarly, docLate], 1, by decide,
      ⟨docLate, by decide, by decide, by decide⟩, by decide⟩⟩

/-- C2: for every store state and limit, the Listing Handler's response is a
permutation of the normalized selected page, sorted ascending by the
`created_at` sort key; a record lacking a timestamp gets sort key `""`,
whose key compares below every other record's key. -/
theorem listing_page_sorted_by_created_at (store : List RawDoc) (limit : Nat) :
    List.Perm (list_messages store limit)
        ((get_documents "message" store limit).map normalizeDoc)
    ∧ List.Sorted keyLe (list_messages store limit)
    ∧ ∀ m ∈ list_messages store limit, m.created_at = none →
        sortKey m = "" ∧ ∀ m' : MessageOut, strLe (sortKey m) (sortKey m') = true := by
  refine ⟨List.perm_insertionSort keyLe _, List.sorted_insertionSort keyLe _, ?_⟩
  intro m _ hnone
  have hk : sortKey m = "" := by simp [sortKey, hnone]
  refine ⟨hk, fun m' => ?_⟩
  rw [hk]
  rfl

/-- Witness for C2 at a concrete page containing a record with no
timestamp. -/
theorem listing_page_sorted_by_created_at_witness :
    sortKey (normalizeDoc docNoTime) = ""
    ∧ strLe (sortKey (normalizeDoc docNoTime)) (sortKey (normalizeDoc docLate))
        = true := by
  have h := (listing_page_sorted_by_created_at [docNoTime] 1).2.2
    (normalizeDoc docNoTime) (by decide) (by decide)
  exact ⟨h.1, h.2 (normalizeDoc docLate)⟩

/-- C3: the Listing Handler never returns more than `limit` items. -/
theorem listing_length_le_limit (store : List RawDoc) (limit : Nat) :
    (list_messages store limit).length ≤ limit := by
  have h1 : (list_messages store limit).length
      = ((get_documents "message" store limit).map normalizeDoc).length :=
    (List.perm_insertionSort keyLe _).length_eq
  rw [h1, List.length_map, get_documents, List.length_take]
  exact Nat.min_le_left _ _

/-- C10: normalization is total over raw documents with missing fields; the
normalized `id` is `none` exactly when `_id` is absent or falsy (in
particular for an absent `_id`, an empty-string `_id`, and a zero `_id`),
is `str(_id)` when `_id` is truthy, and the normalized `created_at` is the
timestamp's ISO form when present and `none` when absent. -/
theorem normalize_total_id_created_at (d : RawDoc) :
    ((normalizeDoc d).id = none ↔ ∀ v, d.mongoId = some v → v.truthy = false)
    ∧ (∀ v, d.mongoId = some v → v.truthy = true →
        (normalizeDoc d).id = some v.pyStr)
    ∧ (normalizeDoc { d with mongoId := none }).id = none
    ∧ (normalizeDoc { d with mongoId := some (BVal.vStr "") }).id = none
    ∧ (normalizeDoc { d with mongoId := some (BVal.vInt 0) }).id = none
    ∧ (normalizeDoc d).created_at = d.created_at.map PyDateTime.isoformat := by
  refine ⟨?_, ?_, rfl, rfl, rfl, rfl⟩
  · cases hm : d.mongoId with
    | none => simp [normalizeDoc, hm]
    | some v =>
        cases hv : v.truthy
        · simp [normalizeDoc, hm, hv]
        · simp [normalizeDoc, hm, hv]
  · intro v hm hv
    simp [normalizeDoc, hm, hv]

/-- Witness for C10 at a concrete document with a truthy `_id`. -/
theorem normalize_total_id_created_at_witness :
    (normalizeDoc docLate).id = some "b2" := by
  have h := (normalize_total_id_created_at docLate).2.1 (BVal.vStr "b2")
    (by decide) (by decide)
  exact h

/-- C4: on a successful upload, the write goes to the upload directory under
`token ++ ext` where `ext` is the original filename's extension verbatim
(`os.path.splitext`), the recorded `file_url` is `"/uploads/"` joined with
that generated name; the extension of `photo.PNG` is `.PNG` (case and
leading separator preserved), a name with no dot yields an empty extension,
and the name generated for `photo.PNG` ends in `.PNG`. -/
theorem upload_name_token_plus_verbatim_ext (u : String) (t : Option String)
    (f : UploadFileM) (token uploadDir : String) (now : PyDateTime) (env : Env)
    (hd : env.diskFail = none) (hi : env.insertFail = none) :
    (create_message u t (some f) token uploadDir now env).writes
        = [⟨uploadDir ++ "/" ++ (token ++ splitextExt (pyOrEmpty f.filename)),
            f.content⟩]
    ∧ (create_message u t (some f) token uploadDir now env).store
        = env.store ++ [(toString env.store.length,
            ⟨u, t,
              some ("/uploads/" ++ (token ++ splitextExt (pyOrEmpty f.filename))),
              f.content_type, now⟩)]
    ∧ splitextExt "photo.PNG" = ".PNG"
    ∧ (∀ s : String, '.' ∉ s.data → splitextExt s = "")
    ∧ ∃ p : String, token ++ splitextExt "photo.PNG" = p ++ ".PNG" := by
  refine ⟨?_, ?_, by decide, splitextExt_of_no_dot, ⟨token, ?_⟩⟩
  · simp [create_message, hd, hi, create_document]
  · simp [create_message, hd, hi, create_document]
  · rw [show splitextExt "photo.PNG" = ".PNG" by decide]

/-- Witness for C4: uploading `photo.PNG` with a fresh token persists a
message whose `file_url` is `/uploads/tok.PNG`. -/
theorem upload_name_token_plus_verbatim_ext_witness :
    (create_message "alice" none (some filePhoto) "tok" "up" dtEarly
        envEmpty).store
      = [("0", ⟨"alice", none, some "/uploads/tok.PNG", some "image/png",
          dtEarly⟩)] := by
  have h := upload_name_token_plus_verbatim_ext "alice" none filePhoto "tok"
    "up" dtEarly envEmpty (by decide) (by decide)
  rw [h.2.1]
  decide

/-- C5 counterexample: a submission whose username is the empty string is
accepted by the Ingestion Handler — it returns `{"id": "0", "ok": true}` and
persists a message whose username is `""`. -/
theorem empty_username_accepted_cex :
    (create_message "" none none "tok" "up" dtEarly envEmpty).response
        = HResp.ok ⟨"0", true⟩
    ∧ (create_message "" none none "tok" "up" dtEarly envEmpty).store
        = [("0", ⟨"", none, none, none, dtEarly⟩)] := by
  decide

/-- C5 (amended): the Ingestion Handler requires `username` to be present
but does not require it to be non-empty: a submission with an empty username
is accepted, and the persisted message carries the empty username. -/
theorem empty_username_accepted (t : Option String) (file : Option UploadFileM)
    (token uploadDir : String) (now : PyDateTime) (env : Env)
    (hd : env.diskFail = none) (hi : env.insertFail = none) :
    ∃ msg : Message,
      (create_message "" t file token uploadDir now env).response
          = HResp.ok ⟨toString env.store.length, true⟩
      ∧ (create_message "" t file token uploadDir now env).store
          = env.store ++ [(toString env.store.length, msg)]
      ∧ msg.username = "" := by
  cases file with
  | none =>
      refine ⟨⟨"", t, none, none, now⟩, ?_, ?_, rfl⟩ <;>
        simp [create_message, hi, create_document]
  | some f =>
      refine ⟨⟨"", t, gatheredFileUrl (some f) token,
        gatheredContentType (some f), now⟩, ?_, ?_, rfl⟩ <;>
        simp [create_message, hd, hi, create_document, gatheredFileUrl,
          gatheredContentType]

/-- Witness for C5's amended claim at a concrete empty-username call. -/
theorem empty_username_accepted_witness :
    ∃ msg : Message,
      (create_message "" none none "tok" "up" dtEarly envEmpty).response
          = HResp.ok ⟨toString envEmpty.store.length, true⟩
      ∧ (create_message "" none none "tok" "up" dtEarly envEmpty).store
          = envEmpty.store ++ [(toString envEmpty.store.length, msg)]
      ∧ msg.username = "" :=
  empty_username_accepted none none "tok" "up" dtEarly envEmpty (by decide)
    (by decide)

/-- C6: a submission carrying a username but neither text nor a file raises
no error: the handler succeeds and persists a message whose `text` and
`file_url` are both absent (it also performs no file write). -/
theorem message_without_text_or_file_accepted (u token uploadDir : String)
    (now : PyDateTime) (env : Env) (hi : env.insertFail = none) :
    (create_message u none none token uploadDir now env).response
        = HResp.ok ⟨toString env.store.length, true⟩
    ∧ (create_message u none none token uploadDir now env).store
        = env.store ++ [(toString env.store.length, ⟨u, none, none, none, now⟩)]
    ∧ (create_message u none none token uploadDir now env).writes = [] := by
  refine ⟨?_, ?_, ?_⟩ <;> simp [create_message, hi, create_document]

/-- Witness for C6 at a concrete text-less, file-less submission. -/
theorem message_without_text_or_file_accepted_witness :
    (create_message "alice" none none "tok" "up" dtEarly envEmpty).response
        = HResp.ok ⟨toString envEmpty.store.length, true⟩
    ∧ (create_message "alice" none none "tok" "up" dtEarly envEmpty).store
        = envEmpty.store
            ++ [(toString envEmpty.store.length, ⟨"alice", none, none, none, dtEarly⟩)]
    ∧ (create_message "alice" none none "tok" "up" dtEarly envEmpty).writes = [] :=
  message_without_text_or_file_accepted "alice" "tok" "up" dtEarly envEmpty
    (by decide)

/-- C7: on success the handler persists exactly one message — the store
grows by exactly the message built from the gathered `username`, `text`,
`file_url` and `content_type` — and returns
`{"id": <store-assigned id>, "ok": true}`, where the id in the response is
the identifier `create_document` assigned. -/
theorem persist_one_message_and_return_id (u : String) (t : Option String)
    (file : Option UploadFileM) (token uploadDir : String) (now : PyDateTime)
    (env : Env) (hd : env.diskFail = none) (hi : env.insertFail = none) :
    (create_message u t file token uploadDir now env).store
        = env.store ++ [(toString env.store.length,
            ⟨u, t, gatheredFileUrl file token, gatheredContentType file, now⟩)]
    ∧ (create_message u t file token uploadDir now env).response
        = HResp.ok ⟨toString env.store.length, true⟩
    ∧ (create_document "message"
            ⟨u, t, gatheredFileUrl file token, gatheredContentType file, now⟩
            env.store).2
        = toString env.store.length := by
  cases file <;> refine ⟨?_, ?_, rfl⟩ <;>
    simp [create_message, hd, hi, create_document, gatheredFileUrl,
      gatheredContentType]

/-- Witness for C7 at a concrete successful submission with a file. -/
theorem persist_one_message_and_return_id_witness :
    (create_message "alice" (some "hi") (some filePhoto) "tok" "up" dtEarly
        envEmpty).store
      = envEmpty.store ++ [(toString envEmpty.store.length,
          ⟨"alice", some "hi", gatheredFileUrl (some filePhoto) "tok",
            gatheredContentType (some filePhoto), dtEarly⟩)] :=
  (persist_one_message_and_return_id "alice" (some "hi") (some filePhoto)
    "tok" "up" dtEarly envEmpty (by decide) (by decide)).1

/-- C8: every modelled failure in either handler surfaces as the single
error kind `HTTPException(500, str(e))`: a store failure during listing, a
disk-write failure during ingestion, and a store-insert failure during
ingestion all map to status 500 with the stringified exception as detail. -/
theorem all_failures_uniform_500 :
    (∀ e : Exc, list_messages_endpoint (.error e) = HResp.httpError 500 e.str)
    ∧ (∀ (u : String) (t : Option String) (f : UploadFileM)
          (token uploadDir : String) (now : PyDateTime) (env : Env) (e : Exc),
        env.diskFail = some e →
        (create_message u t (some f) token uploadDir now env).response
            = HResp.httpError 500 e.str)
    ∧ (∀ (u : String) (t : Option String) (file : Option UploadFileM)
          (token uploadDir : String) (now : PyDateTime) (env : Env) (e : Exc),
        env.diskFail = none → env.insertFail = some e →
        (create_message u t file token uploadDir now env).response
            = HResp.httpError 500 e.str) := by
  refine ⟨fun _ => rfl, ?_, ?_⟩
  · intro u t f token uploadDir now env e hd
    simp [create_message, hd]
  · intro u t file token uploadDir now env e hd hi
    cases file <;> simp [create_message, hd, hi]

/-- Witness for C8 at one concrete failure of each modelled kind. -/
theorem all_failures_uniform_500_witness :
    list_messages_endpoint (.error ⟨"boom"⟩) = HResp.httpError 500 "boom"
    ∧ (create_message "alice" none (some filePhoto) "tok" "up" dtEarly
          { store := [], diskFail := some ⟨"disk full"⟩ }).response
        = HResp.httpError 500 "disk full"
    ∧ (create_message "alice" none none "tok" "up" dtEarly
          { store := [], insertFail := some ⟨"store down"⟩ }).response
        = HResp.httpError 500 "store down" :=
  ⟨all_failures_uniform_500.1 ⟨"boom"⟩,
    all_failures_uniform_500.2.1 "alice" none filePhoto "tok" "up" dtEarly
      { store := [], diskFail := some ⟨"disk full"⟩ } ⟨"disk full"⟩ rfl,
    all_failures_uniform_500.2.2 "alice" none none "tok" "up" dtEarly
      { store := [], insertFail := some ⟨"store down"⟩ } ⟨"store down"⟩ rfl rfl⟩

/-- C9: a submission without a file performs no file write, and the
persisted message has `file_url` and `content_type` both `none`; the
remaining fields (`username`, `text`, `created_at`) are exactly those of the
message persisted when a file is attached, so they are unaffected by the
presence or absence of a file. -/
theorem no_file_frame (u : String) (t : Option String) (f : UploadFileM)
    (token uploadDir : String) (now : PyDateTime) (env : Env)
    (hd : env.diskFail = none) (hi : env.insertFail = none) :
    (create_message u t none token uploadDir now env).writes = []
    ∧ (create_message u t none token uploadDir now env).store
        = env.store ++ [(toString env.store.length, ⟨u, t, none, none, now⟩)]
    ∧ ∃ (furl : String) (ct : Option String),
        (create_message u t (some f) token uploadDir now env).store
            = env.store ++ [(toString env.store.length, ⟨u, t, some furl, ct, now⟩)] := by
  refine ⟨by simp [create_message, hi],
    by simp [create_message, hi, create_document],
    ⟨"/uploads/" ++ (token ++ splitextExt (pyOrEmpty f.filename)),
      f.content_type, ?_⟩⟩
  simp [create_message, hd, hi, create_document]

/-- Witness for C9 at a concrete file-less submission. -/
theorem no_file_frame_witness :
    (create_message "alice" (some "hi") none "tok" "up" dtEarly envEmpty).writes
        = []
    ∧ (create_message "alice" (some "hi") none "tok" "up" dtEarly envEmpty).store
        = envEmpty.store ++ [(toString envEmpty.store.length,
            ⟨"alice", some "hi", none, none, dtEarly⟩)] := by
  have h := no_file_frame "alice" (some "hi") filePhoto "tok" "up" dtEarly
    envEmpty (by decide) (by decide)
  exact ⟨h.1, h.2.1⟩

end ChatBackend
